import Mathlib

/-!
# PROXY protocol client layer — shallow embedding

Verification of the HaProxy (PROXY) protocol client layer of the `rama`
repository (`src/proxy/pp/client/layer.rs`).  The `serve` methods of
`HaProxyService` for `version::One` and `version::Two` are embedded as pure
Lean functions over an explicit model of the context, the established client
connection and the write side-effect (the bytes written to the connection are
returned as a trace).

The v1/v2 wire encoders (`crate::proxy::pp::protocol::{v1, v2}`) are not part
of the sources at hand; the definitions below that correspond to them are
modelled from the specification (§4.4, §4.5, §6.1, §6.2) and each such
definition says so in its doc comment.
-/

namespace Rama

/-- An IPv4 address: four octets. -/
structure Ipv4 where
  o1 : Nat
  o2 : Nat
  o3 : Nat
  o4 : Nat
deriving Repr, DecidableEq

/-- An IPv6 address: eight 16-bit groups. -/
structure Ipv6 where
  g1 : Nat
  g2 : Nat
  g3 : Nat
  g4 : Nat
  g5 : Nat
  g6 : Nat
  g7 : Nat
  g8 : Nat
deriving Repr, DecidableEq

/-- `std::net::IpAddr`: either a 4-byte or a 16-byte address. -/
inductive IpAddr where
  | v4 (addr : Ipv4)
  | v6 (addr : Ipv6)
deriving Repr, DecidableEq

/-- `std::net::SocketAddr`: an IP address paired with a port. -/
structure SocketAddr where
  ip : IpAddr
  port : Nat
deriving Repr, DecidableEq

/-- The `Forwarded` context extension, reduced to the one accessor the layer
uses: `client_socket_addr()`, which may be absent. -/
structure Forwarded where
  clientSocketAddr : Option SocketAddr
deriving Repr, DecidableEq

/-- The `SocketInfo` context extension: the peer address recorded for the
connection (`peer_addr()`). -/
structure SocketInfo where
  peerAddr : SocketAddr
deriving Repr, DecidableEq

/-- The typed extension map of `Context`, restricted to the two extension
types the PROXY client layer reads (`ctx.get::<Forwarded>()` and
`ctx.get::<SocketInfo>()`); each type is stored at most once. -/
structure Context where
  forwarded : Option Forwarded
  socketInfo : Option SocketInfo
deriving Repr, DecidableEq

/-- The connection returned by the inner service: its `addr()` (peer address)
and the outcome of a `write_all` on it (`none` = the write succeeds,
`some e` = the write fails with I/O error `e`). -/
structure Conn where
  addr : SocketAddr
  writeError : Option String
deriving Repr, DecidableEq

/-- `EstablishedClientConnection { ctx, req, conn }`: the triple produced by
the inner connecting service. -/
structure EstablishedClientConnection (Req : Type) where
  ctx : Context
  req : Req
  conn : Conn
deriving Repr, DecidableEq

/-- The boxed error type (`BoxError`) as the layer builds it: an inner-service
error, an `OpaqueError::from_display` message, an I/O error from `write_all`,
or an error wrapped by `ErrorContext::context`. -/
inductive BoxError where
  | inner (msg : String)
  | display (msg : String)
  | io (msg : String)
  | context (what : String) (cause : BoxError)
deriving Repr, DecidableEq

/-- Whether an IP address is IPv4 (`true`) or IPv6 (`false`). -/
def IpAddr.isV4 : IpAddr → Bool
  | .v4 _ => true
  | .v6 _ => false

/-- Source-address resolution in both `serve` bodies:
`ctx.get::<Forwarded>().and_then(|f| f.client_socket_addr())
   .or_else(|| ctx.get::<SocketInfo>().map(|info| *info.peer_addr()))`. -/
def resolveSrc (ctx : Context) : Option SocketAddr :=
  match ctx.forwarded.bind Forwarded.clientSocketAddr with
  | some addr => some addr
  | none => ctx.socketInfo.map SocketInfo.peerAddr

/-- The address pair handed to the encoder once both `serve` bodies have
matched `(src.ip(), dst.ip())` against equal families. -/
inductive AddressPair where
  | ip4 (src dst : Ipv4) (srcPort dstPort : Nat)
  | ip6 (src dst : Ipv6) (srcPort dstPort : Nat)
deriving Repr, DecidableEq

/-- The family dispatch `match (src.ip(), dst.ip())` shared by both `serve`
bodies: equal families yield an address pair, mixed families yield `none`
(the mismatch error branch). -/
def mkAddressPair (src dst : SocketAddr) : Option AddressPair :=
  match src.ip, dst.ip with
  | .v4 s, .v4 d => some (.ip4 s d src.port dst.port)
  | .v6 s, .v6 d => some (.ip6 s d src.port dst.port)
  | _, _ => none

/-- Decimal rendering of a `Nat`, used for ports and IPv4 octets. -/
def natStr (n : Nat) : String :=
  Nat.repr n

/-- Dotted-quad rendering of an IPv4 address. -/
def ipv4Str (a : Ipv4) : String :=
  natStr a.o1 ++ "." ++ natStr a.o2 ++ "." ++ natStr a.o3 ++ "." ++ natStr a.o4

/-- Lowercase hexadecimal rendering of one 16-bit group. -/
def hexStr (n : Nat) : String :=
  (Nat.toDigits 16 n).asString

/-- Colon-hex rendering of an IPv6 address, as in the specification's
examples (eight groups, no zero compression). -/
def ipv6Str (a : Ipv6) : String :=
  hexStr a.g1 ++ ":" ++ hexStr a.g2 ++ ":" ++ hexStr a.g3 ++ ":" ++ hexStr a.g4
    ++ ":" ++ hexStr a.g5 ++ ":" ++ hexStr a.g6 ++ ":" ++ hexStr a.g7 ++ ":"
    ++ hexStr a.g8

/-- Modelled from the spec: the PROXY v1 line built by
`v1::Addresses::new_tcp4 / new_tcp6` plus `to_string()` (§4.4, §6.1):
`"PROXY " <family> " " <src-ip> " " <dst-ip> " " <src-port> " " <dst-port>
"\r\n"`.  The `v1` module is not among the sources at hand. -/
def v1Line : AddressPair → String
  | .ip4 s d sp dp =>
      "PROXY TCP4 " ++ ipv4Str s ++ " " ++ ipv4Str d ++ " "
        ++ natStr sp ++ " " ++ natStr dp ++ "\r\n"
  | .ip6 s d sp dp =>
      "PROXY TCP6 " ++ ipv6Str s ++ " " ++ ipv6Str d ++ " "
        ++ natStr sp ++ " " ++ natStr dp ++ "\r\n"

/-- The bytes of an ASCII string, as written by `write_all(s.as_bytes())`. -/
def strBytes (s : String) : List Nat :=
  s.toList.map Char.toNat

/-- Big-endian encoding of a 16-bit value (ports, the v2 length field). -/
def be16 (n : Nat) : List Nat :=
  [n / 256 % 256, n % 256]

/-- Byte rendering of an IPv4 address. -/
def Ipv4.bytes (a : Ipv4) : List Nat :=
  [a.o1, a.o2, a.o3, a.o4]

/-- Byte rendering of an IPv6 address: the eight groups, big-endian. -/
def Ipv6.bytes (a : Ipv6) : List Nat :=
  be16 a.g1 ++ be16 a.g2 ++ be16 a.g3 ++ be16 a.g4
    ++ be16 a.g5 ++ be16 a.g6 ++ be16 a.g7 ++ be16 a.g8

/-- Modelled from the spec: the v2 address block (§4.5): src bytes, dst
bytes, src port, dst port, each big-endian. -/
def addressBlock : AddressPair → List Nat
  | .ip4 s d sp dp => s.bytes ++ d.bytes ++ be16 sp ++ be16 dp
  | .ip6 s d sp dp => s.bytes ++ d.bytes ++ be16 sp ++ be16 dp

/-- The high nibble of the v2 family/protocol byte: IPv4 = 1, IPv6 = 2. -/
def famNibble : AddressPair → Nat
  | .ip4 .. => 1
  | .ip6 .. => 2

/-- `v2::Protocol` as selected by `protocol::Protocol::v2_protocol()`:
`Tcp => Stream`, `Udp => Datagram`. -/
inductive V2Protocol where
  | stream
  | datagram
deriving Repr, DecidableEq

/-- The low nibble of the v2 family/protocol byte: Stream = 1, Datagram = 2. -/
def protoNibble : V2Protocol → Nat
  | .stream => 1
  | .datagram => 2

/-- The fixed 12-byte v2 signature. -/
def signature : List Nat :=
  [0x0D, 0x0A, 0x0D, 0x0A, 0x00, 0x0D, 0x0A, 0x51, 0x55, 0x49, 0x54, 0x0A]

/-- Modelled from the spec: `v2::Builder::write_payload` (§4.5): the builder
rejects a payload that would push the declared length (address block plus
payload) above 65535; otherwise the payload is kept to be appended verbatim.
`none` (no configured payload) skips the builder call and keeps the payload
empty.  The `v2` module is not among the sources at hand. -/
def v2Payload (ap : AddressPair) : Option (List Nat) → Except String (List Nat)
  | none => .ok []
  | some p =>
      if (addressBlock ap).length + p.length > 65535 then
        .error "payload too large"
      else
        .ok p

/-- Modelled from the spec: `v2::Builder::build` (§4.5, §6.2): the 12-byte
signature; one byte version (high nibble 2) / command (Proxy = 1), i.e. 0x21
as built by `v2::Version::Two | v2::Command::Proxy`; one byte family (high
nibble) / protocol (low nibble); a big-endian 16-bit length counting the
address block plus payload; the address block; the payload verbatim. -/
def v2HeaderBytes (proto : V2Protocol) (ap : AddressPair) (payload : List Nat) :
    List Nat :=
  signature
    ++ [0x21, famNibble ap * 16 + protoNibble proto]
    ++ be16 ((addressBlock ap).length + payload.length)
    ++ addressBlock ap ++ payload

/-- `HaProxyService<_, _, version::One>::serve`, embedded as a pure function.
The argument is the outcome of `self.inner.serve(ctx, req).await`; the result
pairs the layer's return value with the trace of bytes written to the
connection (empty when no write succeeded). -/
def serveV1 {Req : Type} (inner : Except String (EstablishedClientConnection Req)) :
    Except BoxError (EstablishedClientConnection Req) × List Nat :=
  match inner with
  | .error e => (.error (.inner e), [])
  | .ok ecc =>
    match resolveSrc ecc.ctx with
    | none => (.error (.display "PROXY client (v1): missing src socket address"), [])
    | some src =>
      match mkAddressPair src ecc.conn.addr with
      | none =>
          (.error (.display "PROXY client (v1): IP version mismatch between src and dest"), [])
      | some addresses =>
        match ecc.conn.writeError with
        | some e => (.error (.context "PROXY client (v1): write addresses" (.io e)), [])
        | none => (.ok ecc, strBytes (v1Line addresses))

/-- `HaProxyService<_, P, version::Two>::serve`, embedded as a pure function.
`proto` is `P::v2_protocol()` (`Tcp => .stream`, `Udp => .datagram`);
`payload` is `self.version.payload`.  The argument is the outcome of
`self.inner.serve(ctx, req).await`; the result pairs the layer's return value
with the trace of bytes written to the connection. -/
def serveV2 {Req : Type} (proto : V2Protocol) (payload : Option (List Nat))
    (inner : Except String (EstablishedClientConnection Req)) :
    Except BoxError (EstablishedClientConnection Req) × List Nat :=
  match inner with
  | .error e => (.error (.inner e), [])
  | .ok ecc =>
    match resolveSrc ecc.ctx with
    | none => (.error (.display "PROXY client (v2): missing src socket address"), [])
    | some src =>
      match mkAddressPair src ecc.conn.addr with
      | none =>
          (.error (.display "PROXY client (v2): IP version mismatch between src and dest"), [])
      | some ap =>
        match v2Payload ap payload with
        | .error e =>
            (.error (.context
              "PROXY client (v2): write custom binary payload to to header"
              (.display e)), [])
        | .ok pl =>
          match ecc.conn.writeError with
          | some e => (.error (.context "PROXY client (v2): write header" (.io e)), [])
          | none => (.ok ecc, v2HeaderBytes proto ap pl)

/-- Test fixture S3/S4: context with `SocketInfo` peer 127.0.0.1:80, inner
connection to 192.168.1.1:443, writes succeeding. -/
def eccTcp4 : EstablishedClientConnection Unit :=
  { ctx := { forwarded := none
             socketInfo := some { peerAddr := { ip := .v4 ⟨127, 0, 0, 1⟩, port := 80 } } }
    req := ()
    conn := { addr := { ip := .v4 ⟨192, 168, 1, 1⟩, port := 443 }, writeError := none } }

/-- Test fixture S1: context with `SocketInfo` peer 127.0.1.2:80, inner
connection to 192.168.1.101:443, writes succeeding. -/
def eccV1Tcp4 : EstablishedClientConnection Unit :=
  { ctx := { forwarded := none
             socketInfo := some { peerAddr := { ip := .v4 ⟨127, 0, 1, 2⟩, port := 80 } } }
    req := ()
    conn := { addr := { ip := .v4 ⟨192, 168, 1, 101⟩, port := 443 }, writeError := none } }

/-- C1: for the v2 TCP service with payload `[0x2A]`, context source
127.0.0.1:80 and peer 192.168.1.1:443, `serve` writes exactly the 28 bytes
(12-byte signature, 0x21, 0x11, length 0x000D, the two IPv4 addresses, the
two big-endian ports, the payload byte 0x2A) and returns success with the
connection triple. -/
theorem claim1_v2_tcp4_exact_bytes :
    serveV2 .stream (some [0x2A]) (.ok eccTcp4) =
      (.ok eccTcp4,
       [0x0D, 0x0A, 0x0D, 0x0A, 0x00, 0x0D, 0x0A, 0x51, 0x55, 0x49, 0x54, 0x0A,
        0x21, 0x11, 0x00, 0x0D, 0x7F, 0x00, 0x00, 0x01, 0xC0, 0xA8, 0x01, 0x01,
        0x00, 0x50, 0x01, 0xBB, 0x2A]) := by
  rfl

/-- C2: for the v1 TCP service with context source 127.0.1.2:80 and peer
192.168.1.101:443, `serve` writes exactly the ASCII bytes
"PROXY TCP4 127.0.1.2 192.168.1.101 80 443\r\n" and returns success. -/
theorem claim2_v1_tcp4_exact_line :
    serveV1 (.ok eccV1Tcp4) =
      (.ok eccV1Tcp4, strBytes "PROXY TCP4 127.0.1.2 192.168.1.101 80 443\r\n") := by
  rfl

/-- C4: when the context yields no source address (no `Forwarded` extension
with a client socket address and no `SocketInfo` extension), both the v1 and
the v2 `serve` fail with the `missing src socket address` opaque error for
their version and write no bytes. -/
theorem claim4_missing_source {Req : Type} (ctx : Context) (req : Req) (conn : Conn)
    (proto : V2Protocol) (payload : Option (List Nat))
    (hf : ctx.forwarded.bind Forwarded.clientSocketAddr = none)
    (hs : ctx.socketInfo = none) :
    serveV1 (.ok ⟨ctx, req, conn⟩) =
      (.error (.display "PROXY client (v1): missing src socket address"), []) ∧
    serveV2 proto payload (.ok ⟨ctx, req, conn⟩) =
      (.error (.display "PROXY client (v2): missing src socket address"), []) := by
  have hr : resolveSrc ctx = none := by
    simp [resolveSrc, hf, hs]
  exact ⟨by simp [serveV1, hr], by simp [serveV2, hr]⟩

/-- Witness for C4 at the concrete empty context. -/
theorem claim4_missing_source_witness :
    serveV1 (.ok { ctx := { forwarded := none, socketInfo := none }, req := ()
                   conn := { addr := { ip := .v4 ⟨192, 168, 1, 101⟩, port := 443 }
                             writeError := none } }) =
      (.error (.display "PROXY client (v1): missing src socket address"), []) ∧
    serveV2 .stream none
      (.ok { ctx := { forwarded := none, socketInfo := none }, req := ()
             conn := { addr := { ip := .v4 ⟨192, 168, 1, 101⟩, port := 443 }
                       writeError := none } }) =
      (.error (.display "PROXY client (v2): missing src socket address"), []) :=
  claim4_missing_source _ _ _ _ _ rfl rfl

/-- C5: when the resolved source and the destination have different IP
families, both the v1 and the v2 `serve` fail with the family-mismatch
opaque error for their version and write no bytes. -/
theorem claim5_family_mismatch {Req : Type} (ctx : Context) (req : Req) (conn : Conn)
    (src : SocketAddr) (proto : V2Protocol) (payload : Option (List Nat))
    (hsrc : resolveSrc ctx = some src)
    (hfam : src.ip.isV4 ≠ conn.addr.ip.isV4) :
    serveV1 (.ok ⟨ctx, req, conn⟩) =
      (.error (.display "PROXY client (v1): IP version mismatch between src and dest"), []) ∧
    serveV2 proto payload (.ok ⟨ctx, req, conn⟩) =
      (.error (.display "PROXY client (v2): IP version mismatch between src and dest"), []) := by
  have hmk : mkAddressPair src conn.addr = none := by
    obtain ⟨sip, sp⟩ := src
    obtain ⟨⟨dip, dp⟩, we⟩ := conn
    cases sip <;> cases dip <;> simp_all [mkAddressPair, IpAddr.isV4]
  exact ⟨by simp [serveV1, hsrc, hmk], by simp [serveV2, hsrc, hmk]⟩

/-- Witness for C5 at source 127.0.0.1:80 against destination [::1]:443. -/
theorem claim5_family_mismatch_witness :
    serveV1 (.ok { ctx := { forwarded := none
                            socketInfo := some { peerAddr := { ip := .v4 ⟨127, 0, 0, 1⟩, port := 80 } } }
                   req := ()
                   conn := { addr := { ip := .v6 ⟨0, 0, 0, 0, 0, 0, 0, 1⟩, port := 443 }
                             writeError := none } }) =
      (.error (.display "PROXY client (v1): IP version mismatch between src and dest"), []) ∧
    serveV2 .stream none
      (.ok { ctx := { forwarded := none
                      socketInfo := some { peerAddr := { ip := .v4 ⟨127, 0, 0, 1⟩, port := 80 } } }
             req := ()
             conn := { addr := { ip := .v6 ⟨0, 0, 0, 0, 0, 0, 0, 1⟩, port := 443 }
                       writeError := none } }) =
      (.error (.display "PROXY client (v2): IP version mismatch between src and dest"), []) :=
  claim5_family_mismatch _ _ _ { ip := .v4 ⟨127, 0, 0, 1⟩, port := 80 } _ _ rfl (by decide)

/-- C3: when the context holds both a `Forwarded` extension whose client
socket address is present and a `SocketInfo` extension, the source both
serves use is the `Forwarded` client socket address: resolution yields it,
and the bytes each serve writes are those written when the `Forwarded`
address is the only source available — the `SocketInfo` peer address plays
no part. -/
theorem claim3_forwarded_wins {Req : Type} (a : SocketAddr) (si : SocketInfo)
    (req : Req) (conn : Conn) (proto : V2Protocol) (payload : Option (List Nat)) :
    resolveSrc { forwarded := some { clientSocketAddr := some a }
                 socketInfo := some si } = some a ∧
    (serveV1 (.ok { ctx := { forwarded := some { clientSocketAddr := some a }
                             socketInfo := some si }
                    req := req, conn := conn })).snd =
      (serveV1 (.ok { ctx := { forwarded := some { clientSocketAddr := some a }
                               socketInfo := none }
                      req := req, conn := conn })).snd ∧
    (serveV2 proto payload
        (.ok { ctx := { forwarded := some { clientSocketAddr := some a }
                        socketInfo := some si }
               req := req, conn := conn })).snd =
      (serveV2 proto payload
        (.ok { ctx := { forwarded := some { clientSocketAddr := some a }
                        socketInfo := none }
               req := req, conn := conn })).snd := by
  refine ⟨rfl, ?_, ?_⟩
  · cases h : mkAddressPair a conn.addr <;>
      cases hw : conn.writeError <;>
        simp [serveV1, resolveSrc, h, hw]
  · cases h : mkAddressPair a conn.addr with
    | none => simp [serveV2, resolveSrc, h]
    | some ap =>
      cases hp : v2Payload ap payload <;>
        cases hw : conn.writeError <;>
          simp [serveV2, resolveSrc, h, hp, hw]

/-- Test fixture for write failures: S1 addresses, but `write_all` fails
with the I/O error "io failure". -/
def eccWriteFail : EstablishedClientConnection Unit :=
  { ctx := { forwarded := none
             socketInfo := some { peerAddr := { ip := .v4 ⟨127, 0, 1, 2⟩, port := 80 } } }
    req := ()
    conn := { addr := { ip := .v4 ⟨192, 168, 1, 101⟩, port := 443 }
              writeError := some "io failure" } }

/-- C6 as stated is false: on a failing write the v1 serve wraps the error
with the context string "PROXY client (v1): write addresses", not
"PROXY client (v1): write header". -/
theorem claim6_counterexample :
    (serveV1 (.ok eccWriteFail)).fst =
      .error (.context "PROXY client (v1): write addresses" (.io "io failure")) ∧
    ("PROXY client (v1): write addresses" : String) ≠ "PROXY client (v1): write header" :=
  ⟨rfl, by decide⟩

/-- C6 amended: on every failing write of the encoded header, the v2 serve
wraps the I/O error with the context string "PROXY client (v2): write
header", while the v1 serve wraps it with "PROXY client (v1): write
addresses"; in both cases the original I/O error is preserved as the cause
and no bytes are recorded as written. -/
theorem claim6_amended_write_error_context {Req : Type} (ctx : Context) (req : Req)
    (conn : Conn) (src : SocketAddr) (ap : AddressPair) (proto : V2Protocol)
    (payload : Option (List Nat)) (pl : List Nat) (e : String)
    (hsrc : resolveSrc ctx = some src)
    (hmk : mkAddressPair src conn.addr = some ap)
    (hpl : v2Payload ap payload = .ok pl)
    (hw : conn.writeError = some e) :
    serveV1 (.ok ⟨ctx, req, conn⟩) =
      (.error (.context "PROXY client (v1): write addresses" (.io e)), []) ∧
    serveV2 proto payload (.ok ⟨ctx, req, conn⟩) =
      (.error (.context "PROXY client (v2): write header" (.io e)), []) :=
  ⟨by simp [serveV1, hsrc, hmk, hw], by simp [serveV2, hsrc, hmk, hpl, hw]⟩

/-- Witness for the amended C6 at the concrete write-failing fixture. -/
theorem claim6_amended_witness :
    serveV1 (.ok eccWriteFail) =
      (.error (.context "PROXY client (v1): write addresses" (.io "io failure")), []) ∧
    serveV2 .stream none (.ok eccWriteFail) =
      (.error (.context "PROXY client (v2): write header" (.io "io failure")), []) :=
  claim6_amended_write_error_context _ _ _
    { ip := .v4 ⟨127, 0, 1, 2⟩, port := 80 }
    (.ip4 ⟨127, 0, 1, 2⟩ ⟨192, 168, 1, 101⟩ 80 443) _ _ _ _ rfl rfl rfl rfl

/-- The family/protocol byte of a built v2 header. -/
theorem v2HeaderBytes_getD_13 (proto : V2Protocol) (ap : AddressPair) (pl : List Nat) :
    (v2HeaderBytes proto ap pl).getD 13 0 = famNibble ap * 16 + protoNibble proto := by
  cases ap <;> cases proto <;> rfl

/-- The Datagram header equals the Stream header with the family/protocol
byte bumped from low nibble 1 to low nibble 2. -/
theorem v2HeaderBytes_datagram_set (ap : AddressPair) (pl : List Nat) :
    v2HeaderBytes .datagram ap pl
      = (v2HeaderBytes .stream ap pl).set 13
          ((v2HeaderBytes .stream ap pl).getD 13 0 + 1) := by
  cases ap <;> rfl

/-- Inversion of a successful v1 serve: the inner service succeeded with the
returned triple itself, a source resolved, the families matched, the write
succeeded, and the trace is the encoded v1 line. -/
theorem serveV1_ok_inv {Req : Type}
    (inner : Except String (EstablishedClientConnection Req))
    (r : EstablishedClientConnection Req) (t : List Nat)
    (h : serveV1 inner = (.ok r, t)) :
    ∃ src ap, inner = .ok r ∧ resolveSrc r.ctx = some src ∧
      mkAddressPair src r.conn.addr = some ap ∧ r.conn.writeError = none ∧
      t = strBytes (v1Line ap) := by
  cases inner with
  | error e => simp [serveV1] at h
  | ok ecc =>
    cases hres : resolveSrc ecc.ctx with
    | none => simp [serveV1, hres] at h
    | some src =>
      cases hmk : mkAddressPair src ecc.conn.addr with
      | none => simp [serveV1, hres, hmk] at h
      | some ap =>
        cases hw : ecc.conn.writeError with
        | some e => simp [serveV1, hres, hmk, hw] at h
        | none =>
          simp [serveV1, hres, hmk, hw] at h
          obtain ⟨hr, ht⟩ := h
          subst hr
          exact ⟨src, ap, rfl, hres, hmk, hw, ht.symm⟩

/-- Inversion of a successful v2 serve: the inner service succeeded with the
returned triple itself, a source resolved, the families matched, the payload
step and the write succeeded, and the trace is the built v2 header. -/
theorem serveV2_ok_inv {Req : Type} (proto : V2Protocol) (payload : Option (List Nat))
    (inner : Except String (EstablishedClientConnection Req))
    (r : EstablishedClientConnection Req) (t : List Nat)
    (h : serveV2 proto payload inner = (.ok r, t)) :
    ∃ src ap pl, inner = .ok r ∧ resolveSrc r.ctx = some src ∧
      mkAddressPair src r.conn.addr = some ap ∧ v2Payload ap payload = .ok pl ∧
      r.conn.writeError = none ∧ t = v2HeaderBytes proto ap pl := by
  cases inner with
  | error e => simp [serveV2] at h
  | ok ecc =>
    cases hres : resolveSrc ecc.ctx with
    | none => simp [serveV2, hres] at h
    | some src =>
      cases hmk : mkAddressPair src ecc.conn.addr with
      | none => simp [serveV2, hres, hmk] at h
      | some ap =>
        cases hpl : v2Payload ap payload with
        | error e => simp [serveV2, hres, hmk, hpl] at h
        | ok pl =>
          cases hw : ecc.conn.writeError with
          | some e => simp [serveV2, hres, hmk, hpl, hw] at h
          | none =>
            simp [serveV2, hres, hmk, hpl, hw] at h
            obtain ⟨hr, ht⟩ := h
            subst hr
            exact ⟨src, ap, pl, rfl, hres, hmk, hpl, hw, ht.symm⟩

/-- The success shape of the v2 serve, given the branch facts. -/
theorem serveV2_ok_shape {Req : Type} (proto : V2Protocol) (payload : Option (List Nat))
    (ecc : EstablishedClientConnection Req) (src : SocketAddr) (ap : AddressPair)
    (pl : List Nat)
    (hres : resolveSrc ecc.ctx = some src)
    (hmk : mkAddressPair src ecc.conn.addr = some ap)
    (hpl : v2Payload ap payload = .ok pl)
    (hw : ecc.conn.writeError = none) :
    serveV2 proto payload (.ok ecc) = (.ok ecc, v2HeaderBytes proto ap pl) := by
  simp [serveV2, hres, hmk, hpl, hw]

/-- C7: in every built v2 header whose address block plus payload fits the
16-bit length field, the big-endian two-byte length field (bytes 14 and 15)
equals the byte-length of the address block plus the byte-length of the
payload, and the address block is 12 bytes for IPv4 or 36 bytes for IPv6. -/
theorem claim7_v2_length_field (proto : V2Protocol) (ap : AddressPair)
    (payload : List Nat)
    (h : (addressBlock ap).length + payload.length ≤ 65535) :
    (v2HeaderBytes proto ap payload).getD 14 0 * 256
        + (v2HeaderBytes proto ap payload).getD 15 0
      = (addressBlock ap).length + payload.length ∧
    ((addressBlock ap).length = 12 ∨ (addressBlock ap).length = 36) := by
  constructor
  · have h14 : (v2HeaderBytes proto ap payload).getD 14 0
        = ((addressBlock ap).length + payload.length) / 256 % 256 := rfl
    have h15 : (v2HeaderBytes proto ap payload).getD 15 0
        = ((addressBlock ap).length + payload.length) % 256 := rfl
    rw [h14, h15]
    omega
  · cases ap with
    | ip4 s d sp dp => exact Or.inl rfl
    | ip6 s d sp dp => exact Or.inr rfl

/-- Witness for C7 at the S3 addresses with payload `[0x2A]`. -/
theorem claim7_v2_length_field_witness :
    (addressBlock (.ip4 ⟨127, 0, 0, 1⟩ ⟨192, 168, 1, 1⟩ 80 443)).length + [0x2A].length ≤ 65535 ∧
    ((v2HeaderBytes .stream (.ip4 ⟨127, 0, 0, 1⟩ ⟨192, 168, 1, 1⟩ 80 443) [0x2A]).getD 14 0 * 256
        + (v2HeaderBytes .stream (.ip4 ⟨127, 0, 0, 1⟩ ⟨192, 168, 1, 1⟩ 80 443) [0x2A]).getD 15 0
      = (addressBlock (.ip4 ⟨127, 0, 0, 1⟩ ⟨192, 168, 1, 1⟩ 80 443)).length + [0x2A].length ∧
    ((addressBlock (.ip4 ⟨127, 0, 0, 1⟩ ⟨192, 168, 1, 1⟩ 80 443)).length = 12 ∨
      (addressBlock (.ip4 ⟨127, 0, 0, 1⟩ ⟨192, 168, 1, 1⟩ 80 443)).length = 36)) :=
  ⟨by decide, claim7_v2_length_field .stream _ [0x2A] (by decide)⟩

/-- C8: on the same inputs, a successful UDP-constructed v2 serve writes the
same bytes as the TCP-constructed one except that the family/protocol byte
at index 13 has its low nibble bumped from 1 (Stream) to 2 (Datagram); that
byte in the TCP header is 0x11 (IPv4) or 0x21 (IPv6). -/
theorem claim8_udp_protocol_byte {Req : Type} (payload : Option (List Nat))
    (inner : Except String (EstablishedClientConnection Req))
    (r : EstablishedClientConnection Req) (t : List Nat)
    (h : serveV2 .stream payload inner = (.ok r, t)) :
    serveV2 .datagram payload inner = (.ok r, t.set 13 (t.getD 13 0 + 1)) ∧
    (t.getD 13 0 = 0x11 ∨ t.getD 13 0 = 0x21) := by
  obtain ⟨src, ap, pl, hin, hres, hmk, hpl, hw, ht⟩ :=
    serveV2_ok_inv .stream payload inner r t h
  subst hin
  subst ht
  constructor
  · rw [serveV2_ok_shape .datagram payload r src ap pl hres hmk hpl hw,
      v2HeaderBytes_datagram_set]
  · rw [v2HeaderBytes_getD_13]
    cases ap with
    | ip4 s d sp dp => exact Or.inl rfl
    | ip6 s d sp dp => exact Or.inr rfl

/-- Witness for C8 at the S3/S4 fixture. -/
theorem claim8_udp_protocol_byte_witness :
    serveV2 .datagram (some [0x2A]) (.ok eccTcp4) =
      (.ok eccTcp4,
        ((serveV2 .stream (some [0x2A]) (.ok eccTcp4)).snd.set 13
          ((serveV2 .stream (some [0x2A]) (.ok eccTcp4)).snd.getD 13 0 + 1))) ∧
    ((serveV2 .stream (some [0x2A]) (.ok eccTcp4)).snd.getD 13 0 = 0x11 ∨
      (serveV2 .stream (some [0x2A]) (.ok eccTcp4)).snd.getD 13 0 = 0x21) :=
  claim8_udp_protocol_byte (some [0x2A]) (.ok eccTcp4) eccTcp4
    (serveV2 .stream (some [0x2A]) (.ok eccTcp4)).snd rfl

/-- C9: on every success path, both the v1 and the v2 serve return exactly
the `(ctx, req, conn)` triple the inner service produced. -/
theorem claim9_triple_unchanged {Req : Type} (proto : V2Protocol)
    (payload : Option (List Nat)) (ecc r1 r2 : EstablishedClientConnection Req)
    (t1 t2 : List Nat)
    (h1 : serveV1 (.ok ecc) = (.ok r1, t1))
    (h2 : serveV2 proto payload (.ok ecc) = (.ok r2, t2)) :
    r1 = ecc ∧ r2 = ecc := by
  obtain ⟨_, _, hin1, _⟩ := serveV1_ok_inv (.ok ecc) r1 t1 h1
  obtain ⟨_, _, _, hin2, _⟩ := serveV2_ok_inv proto payload (.ok ecc) r2 t2 h2
  exact ⟨(Except.ok.inj hin1).symm, (Except.ok.inj hin2).symm⟩

/-- Witness for C9 at the S3 fixture. -/
theorem claim9_triple_unchanged_witness :
    eccTcp4 = eccTcp4 ∧ eccTcp4 = eccTcp4 :=
  claim9_triple_unchanged .stream (some [0x2A]) eccTcp4 eccTcp4 eccTcp4
    (strBytes "PROXY TCP4 127.0.0.1 192.168.1.1 80 443\r\n")
    (v2HeaderBytes .stream (.ip4 ⟨127, 0, 0, 1⟩ ⟨192, 168, 1, 1⟩ 80 443) [0x2A])
    rfl rfl

/-- C10: on every success path of the v2 serve, the byte immediately after
the 12-byte signature (index 12) equals 0x21: version 2, command Proxy. -/
theorem claim10_version_command_byte {Req : Type} (proto : V2Protocol)
    (payload : Option (List Nat))
    (inner : Except String (EstablishedClientConnection Req))
    (r : EstablishedClientConnection Req) (t : List Nat)
    (h : serveV2 proto payload inner = (.ok r, t)) :
    t.getD 12 0 = 0x21 := by
  obtain ⟨src, ap, pl, hin, hres, hmk, hpl, hw, ht⟩ :=
    serveV2_ok_inv proto payload inner r t h
  subst ht
  cases ap <;> rfl

/-- Witness for C10 at the S3 fixture. -/
theorem claim10_version_command_byte_witness :
    (serveV2 .stream (some [0x2A]) (.ok eccTcp4)).snd.getD 12 0 = 0x21 :=
  claim10_version_command_byte .stream (some [0x2A]) (.ok eccTcp4) eccTcp4
    (serveV2 .stream (some [0x2A]) (.ok eccTcp4)).snd rfl

end Rama
